import Mathlib

/-!
Shallow embedding of the osf.io fragment under verification:
  * website/project/views/contributor.py  (get_node_contributors_abbrev)
  * website/addons/onedrive/views.py      (onedrive_folder_list, onedrive_get_share_emails)
  * website/addons/onedrive/model.py      (OnedriveNodeSettings)
Machine integers are modelled with Nat/Int, Python exceptions with Except,
and the remote OneDrive service with explicit environment records.
-/

namespace OsfSpec

/-! ## Contributor list formatter (website/project/views/contributor.py) -/

/-- One element of the `contributors` list built by `get_node_contributors_abbrev`:
`{'user_id': user._primary_key, 'separator': separator}`. -/
structure ContribEntry where
  user_id : String
  separator : String
deriving DecidableEq, Repr

/-- The value returned by `get_node_contributors_abbrev`:
`{'contributors': ..., 'others_count': ..., 'others_suffix': ...}`.
In Python `others_count` is initialised to the string `''` and only ever
overwritten with an int; we model it as `Option Int` with `none` for `''`. -/
structure ContribAbbrev where
  contributors : List ContribEntry
  others_count : Option Int
  others_suffix : String
deriving DecidableEq, Repr

/-- Separator chosen in the loop body of `get_node_contributors_abbrev` for
0-based index `i`, full list length `n` and bound `max_count`.  The Python
comparisons are over ints, so `max_count - 1`, `n - 1`, `n - 2` are taken in
`Int` (Python has no truncated natural subtraction). -/
def contribSeparator (n max_count i : Nat) : String :=
  if (i : Int) = (max_count : Int) - 1 ∧ (n : Int) > (max_count : Int) then " &"
  else if (i : Int) = (n : Int) - 1 then ""
  else if (i : Int) = (n : Int) - 2 then " &"
  else ","

/-- `get_node_contributors_abbrev` (contributor.py lines 44-71), with the node /
permission plumbing stripped to its computational core: `users` is the ordered
user list (represented by primary keys) and `max_count` the truncation bound
(`kwargs.get('max_count', 3)`; the route passes a non-negative count, modelled
as `Nat`; `users[:max_count]` is `List.take`).  The loop
`for index, user in enumerate(users[:max_count])` appends one entry per
considered index; its first branch
`if index == max_count - 1 and len(users) > max_count:` fires exactly once,
at `index = max_count - 1`, and only when `max_count ≥ 1` (so that the index is
in range) and `n > max_count`; in that case it sets
`others_count = n_contributors - 3` (note the literal `3`, not `max_count`) and
`others_suffix = 's' if others_count > 1 else ''`. -/
def get_node_contributors_abbrev (users : List String) (max_count : Nat) : ContribAbbrev :=
  let n := users.length
  let overflow : Bool := if max_count < n ∧ 1 ≤ max_count then true else false
  { contributors :=
      (users.take max_count).enum.map
        (fun p => { user_id := p.2, separator := contribSeparator n max_count p.1 }),
    others_count := if overflow then some ((n : Int) - 3) else none,
    others_suffix := if overflow then (if (n : Int) - 3 > 1 then "s" else "") else "" }

/-- Separator rule as the spec states it (§4.4), word for word: the considered
indices are `0 ≤ i < min n max_count`; the last considered index with
`n > max_count` gets `" &"`, the last index of the full list gets `""`, the
second-to-last index of the full list gets `" &"`, every other index `","`.
This definition follows the spec text, for comparison with the code model. -/
def specSeparator (n max_count i : Nat) : String :=
  if i = min n max_count - 1 ∧ n > max_count then " &"
  else if i = n - 1 then ""
  else if n ≥ 2 ∧ i = n - 2 then " &"
  else ","

theorem contribSeparator_eq_specSeparator (n max_count i : Nat)
    (h : i < min n max_count) :
    contribSeparator n max_count i = specSeparator n max_count i := by
  unfold contribSeparator specSeparator
  split_ifs <;> first | rfl | omega

theorem contributors_map_separator (users : List String) (max_count : Nat) :
    (get_node_contributors_abbrev users max_count).contributors.map (·.separator)
      = (List.range (min users.length max_count)).map
          (specSeparator users.length max_count) := by
  show ((users.take max_count).enum.map
      (fun p => ContribEntry.mk p.2 (contribSeparator users.length max_count p.1))).map
        (·.separator) = _
  rw [List.map_map]
  have h2 : ((fun x : ContribEntry => x.separator) ∘
      fun p : Nat × String => ContribEntry.mk p.2 (contribSeparator users.length max_count p.1))
      = (contribSeparator users.length max_count) ∘ Prod.fst := rfl
  rw [h2, ← List.map_map, List.enum_map_fst, List.length_take, Nat.min_comm]
  apply List.map_congr_left
  intro i hi
  exact contribSeparator_eq_specSeparator _ _ _ (List.mem_range.mp hi)

theorem contributors_map_user_id (users : List String) (max_count : Nat) :
    (get_node_contributors_abbrev users max_count).contributors.map (·.user_id)
      = users.take max_count := by
  show ((users.take max_count).enum.map
      (fun p => ContribEntry.mk p.2 (contribSeparator users.length max_count p.1))).map
        (·.user_id) = _
  rw [List.map_map]
  have h2 : ((fun x : ContribEntry => x.user_id) ∘
      fun p : Nat × String => ContribEntry.mk p.2 (contribSeparator users.length max_count p.1))
      = Prod.snd := rfl
  rw [h2, List.enum_map_snd]

/-- C1 (amended): for every ordered user list of length `n` and every
`max_count`, `get_node_contributors_abbrev` returns exactly `min n max_count`
entries, carrying the considered users in order, whose separators follow the
§4.4 rule; the overflow branch (taken iff `n > max_count ≥ 1`) sets
`others_count = n - 3` — the literal 3 from the source, not `n - max_count` —
and `others_suffix = "s"` iff `n - 3 > 1`; with `max_count = 3`, lists of size
1..5 produce separators `[""]`, `[" &", ""]`, `[",", " &", ""]`,
`[",", ",", " &"]` (overflow 1), `[",", ",", " &"]` (overflow 2). -/
theorem contributors_abbrev_amended (users : List String) (mc : Nat) :
    (get_node_contributors_abbrev users mc).contributors.length = min users.length mc
    ∧ (get_node_contributors_abbrev users mc).contributors.map (·.user_id) = users.take mc
    ∧ (get_node_contributors_abbrev users mc).contributors.map (·.separator)
        = (List.range (min users.length mc)).map (specSeparator users.length mc)
    ∧ (get_node_contributors_abbrev users mc).others_count
        = (if mc < users.length ∧ 1 ≤ mc then some ((users.length : Int) - 3) else none)
    ∧ (get_node_contributors_abbrev users mc).others_suffix
        = (if mc < users.length ∧ 1 ≤ mc then
            (if (users.length : Int) - 3 > 1 then "s" else "") else "")
    ∧ (get_node_contributors_abbrev ["a"] 3).contributors.map (·.separator) = [""]
    ∧ (get_node_contributors_abbrev ["a", "b"] 3).contributors.map (·.separator)
        = [" &", ""]
    ∧ (get_node_contributors_abbrev ["a", "b", "c"] 3).contributors.map (·.separator)
        = [",", " &", ""]
    ∧ (get_node_contributors_abbrev ["a", "b", "c", "d"] 3).contributors.map (·.separator)
        = [",", ",", " &"]
    ∧ (get_node_contributors_abbrev ["a", "b", "c", "d"] 3).others_count = some 1
    ∧ (get_node_contributors_abbrev ["a", "b", "c", "d", "e"] 3).contributors.map (·.separator)
        = [",", ",", " &"]
    ∧ (get_node_contributors_abbrev ["a", "b", "c", "d", "e"] 3).others_count = some 2 := by
  refine ⟨?_, contributors_map_user_id users mc, contributors_map_separator users mc,
    ?_, ?_, by decide, by decide, by decide, by decide, by decide, by decide, by decide⟩
  · simp [get_node_contributors_abbrev, Nat.min_comm]
  · by_cases h : mc < users.length ∧ 1 ≤ mc <;> simp [get_node_contributors_abbrev, h]
  · by_cases h : mc < users.length ∧ 1 ≤ mc <;> simp [get_node_contributors_abbrev, h]

/-- C1 counterexample: the claim as stated is false on the code at two
concrete inputs.  With `max_count = 3` the list of size 4 yields separators
`[",", ",", " &"]`, not the `[",", " &", " &"]` stated by the §8 table (the
table row disagrees with both the §4.4 rule and the code); and with
`max_count = 5` a list of size 6 yields `others_count = 3` (the code hardcodes
`n - 3`), not `n - max_count = 1` as the claim states. -/
theorem contributors_abbrev_claim_counterexample :
    (get_node_contributors_abbrev ["a", "b", "c", "d"] 3).contributors.map (·.separator)
        = [",", ",", " &"]
    ∧ ([",", ",", " &"] : List String) ≠ [",", " &", " &"]
    ∧ (get_node_contributors_abbrev ["a", "b", "c", "d", "e", "f"] 5).others_count = some 3
    ∧ (some 3 : Option Int) ≠ some ((6 : Int) - 5)
    ∧ (get_node_contributors_abbrev ["a", "b", "c", "d", "e", "f"] 5).others_suffix = "s"
    ∧ ("s" : String) ≠ "" := by decide

/-! ## OneDrive addon data model (website/addons/onedrive/model.py, views.py) -/

/-- A user of the host application; `username` is the email returned by
`onedrive_get_share_emails`, `id` stands for the document identity that
Python object comparison (`contrib != auth.user`) decides on. -/
structure User where
  id : String
  username : String
deriving DecidableEq, Repr

/-- An OAuth credential (`ExternalAccount`): `token` is `oauth_key`, `expired`
says whether the stored token is past its expiry at call time. -/
structure Account where
  token : String
  expired : Bool
deriving DecidableEq, Repr

/-- One oauth grant recorded by `user_settings.grant_oauth_access(node=...,
metadata={'folder': ...})`. -/
structure Grant where
  node : String
  folder : String
deriving DecidableEq, Repr

/-- The user-level settings record (`OnedriveUserSettings`): its owner, whether
it holds a usable credential (`user_settings.has_auth`), and the recorded
grants. -/
structure UserSettings where
  owner : User
  hasAuth : Bool
  grants : List Grant
deriving DecidableEq, Repr

/-- An entry of `metadata['path_collection']['entries']`; only its `name` key
is read by the code. -/
structure PathEntry where
  name : String
deriving DecidableEq, Repr

/-- An entry of `metadata['item_collection']['entries']`. -/
structure OneItem where
  id : String
  name : String
  type : String
deriving DecidableEq, Repr

/-- Remote folder metadata as returned by `client.get_folder(folder_id)`.
`path_collection` and `item_collection` stand for the `entries` lists of the
identically named sub-dicts; `is_deleted` models `metadata.get('is_deleted')`
(absent key reads as falsy, hence `Bool`). -/
structure RemoteFolder where
  name : String
  path_collection : List PathEntry
  item_collection : List OneItem
  is_deleted : Bool
deriving DecidableEq, Repr

/-- The persisted and in-memory state of an `OnedriveNodeSettings` instance:
`folder_id`/`folder_name`/`folder_path` are the stored fields, `folder_data`
is the memoized `_folder_data` instance attribute, `user_settings` the
`foreign_user_settings` reference and `external_account` the credential
reference from the OAuth base class. -/
structure NodeSettings where
  folder_id : Option String
  folder_name : String
  folder_path : String
  folder_data : Option RemoteFolder
  user_settings : Option UserSettings
  external_account : Option Account
deriving DecidableEq, Repr

/-- `OnedriveNodeSettings.has_auth`:
`bool(self.user_settings and self.user_settings.has_auth)`. -/
def has_auth (s : NodeSettings) : Bool :=
  match s.user_settings with
  | some us => us.hasAuth
  | none => false

/-- Remote environment seen by model.py: `refreshOk` is the outcome of
`refresh_oauth_key` / `OnedriveClient` construction (`false` means an
`OnedriveClientException` was raised), `getFolder` the outcome of
`client.get_folder` (`Except.error ()` means an `OnedriveClientException`,
the only exception model.py catches on this path). -/
structure MEnv where
  refreshOk : Bool
  getFolder : String → Except Unit RemoteFolder

/-- Python `'/'.join(parts)`. -/
def slashJoin : List String → String
  | [] => ""
  | [x] => x
  | x :: y :: rest => x ++ "/" ++ slashJoin (y :: rest)

/-- `OnedriveNodeSettings._update_folder_data` (model.py lines 109-126):
returns immediately when `folder_id` is `None`; when `_folder_data` is already
populated the whole guarded block is skipped; otherwise it refreshes the key,
fetches the folder, and on success stores the metadata and derives
`folder_name` and `folder_path`; an `OnedriveClientException` anywhere in the
try block makes it return with the state untouched. -/
def update_folder_data (s : NodeSettings) (env : MEnv) : NodeSettings :=
  match s.folder_id with
  | none => s
  | some fid =>
    match s.folder_data with
    | some _ => s
    | none =>
      if !env.refreshOk then s
      else
        match env.getFolder fid with
        | .error _ => s
        | .ok d =>
          { s with
            folder_data := some d,
            folder_name := d.name,
            folder_path := slashJoin ((d.path_collection.map (·.name)) ++ [d.name]) }

/-- Modelled from the spec: `verify_oauth_access` lives in the OAuth base
class (not in src).  Per §3 the invariant it checks is that a grant linking
the project to the owning credential has been recorded. -/
def verify_oauth_access (us : UserSettings) (nodeId : String) : Bool :=
  us.grants.any (fun g => g.node == nodeId)

/-- `OnedriveNodeSettings.complete`:
`bool(self.has_auth and self.user_settings.verify_oauth_access(...))`. -/
def complete (s : NodeSettings) (nodeId : String) : Bool :=
  has_auth s &&
    (match s.user_settings with
     | some us => verify_oauth_access us nodeId
     | none => false)

/-- `OnedriveNodeSettings.set_folder` (model.py lines 128-143): sets
`folder_id`, calls `_update_folder_data`, saves, and if the node is not
`complete` records a grant `{'folder': folder_id}` on the user settings.
`nodeId` stands for `self.owner`; the node log written at the end is not part
of the addon state. -/
def set_folder (s : NodeSettings) (folder_id : String) (nodeId : String) (env : MEnv) :
    NodeSettings :=
  let s2 := update_folder_data { s with folder_id := some folder_id } env
  if complete s2 nodeId then s2
  else
    { s2 with
      user_settings := s2.user_settings.map
        (fun us => { us with grants := us.grants ++ [{ node := nodeId, folder := folder_id }] }) }

/-- `OnedriveNodeSettings.deauthorize` (model.py lines 154-168): writes the
node log (not modelled as state), sets `folder_id = None`, calls
`_update_folder_data` (which immediately returns since `folder_id` is now
`None`), clears `user_settings`, and calls `clear_auth()` — modelled from the
spec, since the OAuth base class is not in src, as clearing the credential
reference — then saves. -/
def deauthorize (s : NodeSettings) (env : MEnv) : NodeSettings :=
  let s2 := update_folder_data { s with folder_id := none } env
  { s2 with user_settings := none, external_account := none }

/-- Python `str.replace(pat, rep)` on character lists: replaces the leftmost
occurrence of `pat`, continues after the inserted replacement, and so rewrites
every non-overlapping occurrence left to right.  `fuel` bounds the recursion;
`pyStrReplace` supplies `s.length`, which is enough because each step consumes
at least one character of `s` (the patterns used in this file are nonempty;
Python treats an empty pattern differently, a case never exercised here). -/
def pyReplaceAux : Nat → List Char → List Char → List Char → List Char
  | 0, s, _, _ => s
  | _ + 1, [], _, _ => []
  | fuel + 1, c :: rest, pat, rep =>
    if pat.isPrefixOf (c :: rest) then
      rep ++ pyReplaceAux fuel ((c :: rest).drop pat.length) pat rep
    else
      c :: pyReplaceAux fuel rest pat rep

/-- Python `s.replace(pat, rep)` on strings. -/
def pyStrReplace (s pat rep : String) : String :=
  ⟨pyReplaceAux s.data.length s.data pat.data rep.data⟩

/-- `OnedriveNodeSettings.fetch_folder_name` (model.py lines 101-103):
refreshes the cached folder data, then returns
`self.folder_name.replace('All Files', '/ (Full Onedrive)')`.  The pair also
carries the (possibly updated) state. -/
def fetch_folder_name (s : NodeSettings) (env : MEnv) : String × NodeSettings :=
  let s2 := update_folder_data s env
  (pyStrReplace s2.folder_name "All Files" "/ (Full Onedrive)", s2)

/-- `OnedriveNodeSettings.fetch_full_folder_path` (model.py lines 105-107). -/
def fetch_full_folder_path (s : NodeSettings) (env : MEnv) : String × NodeSettings :=
  let s2 := update_folder_data s env
  (s2.folder_path, s2)

/-- Outcome of the external refresh endpoint: `some t` is a successful refresh
returning a new token `t`, `none` a refused refresh. -/
structure TokenEnv where
  refreshResult : Option String

/-- Modelled from the spec: `refresh_oauth_key` (website/addons/onedrive/
utils.py, which is not in src).  Per §4.1: if the stored token is unexpired it
is returned unchanged; if expired, the refresh endpoint is called, and on
success the new, fresh pair is persisted; on failure the client exception
propagates. -/
def refresh_oauth_key (a : Account) (env : TokenEnv) : Except Unit Account :=
  if !a.expired then .ok a
  else
    match env.refreshResult with
    | some t => .ok { token := t, expired := false }
    | none => .error ()

/-- Failure kinds of the two waterbutler serializers: the two `AddonError`
messages raised in model.py, the `HTTPError` re-raised when the token refresh
fails, and the unguarded attribute access that would occur if `has_auth` held
with no account attached (never reached under the §3 invariant). -/
inductive SerErr where
  | notAuthorized
  | folderNotConfigured
  | httpError
  | pythonError
deriving DecidableEq, Repr

/-- `OnedriveNodeSettings.serialize_waterbutler_credentials` (model.py lines
170-177): raises `AddonError('Addon is not authorized')` without auth;
otherwise refreshes the key and returns `{'token': oauth_key}`, re-raising a
refresh failure as an `HTTPError`.  The pair carries the state, whose account
holds the persisted refreshed token on success. -/
def serialize_waterbutler_credentials (s : NodeSettings) (env : TokenEnv) :
    Except SerErr String × NodeSettings :=
  if !has_auth s then (.error .notAuthorized, s)
  else
    match s.external_account with
    | none => (.error .pythonError, s)
    | some a =>
      match refresh_oauth_key a env with
      | .ok a2 => (.ok a2.token, { s with external_account := some a2 })
      | .error _ => (.error .httpError, s)

/-- `OnedriveNodeSettings.serialize_waterbutler_settings` (model.py lines
179-182): raises `AddonError('Folder is not configured')` when `folder_id` is
`None`, else returns `{'folder': folder_id}`. -/
def serialize_waterbutler_settings (s : NodeSettings) : Except SerErr String :=
  match s.folder_id with
  | none => .error .folderNotConfigured
  | some fid => .ok fid

/-! ## OneDrive addon views (website/addons/onedrive/views.py) -/

/-- HTTP error statuses raised by the views via `HTTPError`. -/
inductive HttpErr where
  | forbidden
  | notFound
  | badRequest
deriving DecidableEq, Repr

/-- Spec §7 error taxonomy, as the views surface it: a deleted or missing
remote folder is surfaced as not-found. -/
def NotFoundError : HttpErr := .notFound

/-- Spec §7: retry exhaustion (`MaxRetryError`) is surfaced as the retryable
client error, `http.BAD_REQUEST` in the code. -/
def TransientError : HttpErr := .badRequest

/-- Spec §7: client-side auth/permission failure is surfaced as forbidden. -/
def ForbiddenError : HttpErr := .forbidden

/-- The parts of `node_addon.owner` the views read: `api_url_for(
'onedrive_folder_list', folderId=...)` (the folderId argument rendered as a
string) and the contributor list. -/
structure NodeCtx where
  apiUrlFor : String → String
  contributors : List User

/-- Outcome of `client.get_folder(folder_id)` as views.py distinguishes it:
success, `OnedriveClientException`, or `MaxRetryError`. -/
inductive FetchOutcome where
  | ok (d : RemoteFolder)
  | clientError
  | maxRetry

/-- Remote environment seen by `onedrive_folder_list`: `refreshOk` is the
outcome of the first try block (`refresh_oauth_key` plus `OnedriveClient`
construction; `false` means `OnedriveClientException`), `getFolder` the
outcome of the second. -/
structure ViewEnv where
  refreshOk : Bool
  getFolder : String → FetchOutcome

/-- Python `s.startswith(pre)` (character-list prefix test). -/
def pyStartsWith (s pre : String) : Bool :=
  pre.data.isPrefixOf s.data

/-- Python `s.endswith(suf)` (character-list suffix test). -/
def pyEndsWith (s suf : String) : Bool :=
  suf.data.isSuffixOf s.data

/-- POSIX `os.path.join` on two arguments, as the deployment platform runs
it: an absolute second component discards the first, otherwise the pieces are
glued with `/` unless the first is empty or already ends with `/`. -/
def osPathJoin (a b : String) : String :=
  if pyStartsWith b "/" then b
  else if a = "" || pyEndsWith a "/" then a ++ b
  else a ++ "/" ++ b

/-- One element of the list returned by `onedrive_folder_list`;
`folders_url` is the `urls.folders` link. -/
structure Entry where
  addon : String
  kind : String
  id : String
  name : String
  path : String
  folders_url : String
deriving DecidableEq, Repr

/-- The synthetic root entry returned when `folderId` is absent (views.py
lines 140-150); the link argument `folderId=0` is rendered as `"0"`. -/
def rootEntry (node : NodeCtx) : Entry :=
  { addon := "onedrive",
    kind := "folder",
    id := "0",
    name := "/ (Full Onedrive)",
    path := "All Files",
    folders_url := node.apiUrlFor "0" }

/-- `'/'.join([x['name'] for x in metadata['path_collection']['entries']] +
[metadata['name']])` (views.py lines 169-174, and the same expression in
model.py). -/
def fullPath (md : RemoteFolder) : String :=
  slashJoin ((md.path_collection.map (·.name)) ++ [md.name])

/-- One child entry of the returned listing (views.py lines 176-189). -/
def childEntry (node : NodeCtx) (folder_path : String) (item : OneItem) : Entry :=
  { addon := "onedrive",
    kind := "folder",
    id := item.id,
    name := item.name,
    path := osPathJoin folder_path item.name,
    folders_url := node.apiUrlFor item.id }

/-- `onedrive_folder_list` (views.py lines 130-189): forbidden without auth;
the fixed root entry when the `folderId` query parameter is absent; otherwise
refresh (failure: forbidden), fetch (client exception: not found; retry
exhaustion: bad request), not found when the metadata is marked deleted, and
otherwise one entry per item of type `'folder'`, in order. -/
def onedrive_folder_list (s : NodeSettings) (node : NodeCtx) (env : ViewEnv)
    (folderId : Option String) : Except HttpErr (List Entry) :=
  if !has_auth s then .error .forbidden
  else
    match folderId with
    | none => .ok [rootEntry node]
    | some fid =>
      if !env.refreshOk then .error .forbidden
      else
        match env.getFolder fid with
        | .clientError => .error .notFound
        | .maxRetry => .error .badRequest
        | .ok md =>
          if md.is_deleted then .error .notFound
          else
            .ok ((md.item_collection.filter (fun item => item.type == "folder")).map
              (childEntry node (fullPath md)))

/-- `onedrive_get_share_emails` (views.py lines 105-127): bad request when no
user settings are linked, forbidden when the caller did not authorize the
addon, else the usernames of the contributors other than the caller. -/
def onedrive_get_share_emails (authUser : User) (s : NodeSettings) (node : NodeCtx) :
    Except HttpErr (List String) :=
  match s.user_settings with
  | none => .error .badRequest
  | some us =>
    if us.owner ≠ authUser then .error .forbidden
    else .ok ((node.contributors.filter (fun c => c ≠ authUser)).map (·.username))

/-! ## Concrete fixtures used by witnesses and counterexamples -/

def sampleUser : User := { id := "u1", username := "alice@example.org" }

def sampleUser2 : User := { id := "u2", username := "bob@example.org" }

def authedSettings : NodeSettings :=
  { folder_id := some "123",
    folder_name := "",
    folder_path := "",
    folder_data := none,
    user_settings := some { owner := sampleUser, hasAuth := true, grants := [] },
    external_account := some { token := "tok", expired := false } }

def sampleNode : NodeCtx :=
  { apiUrlFor := fun fid => "/api/v1/project/p1/onedrive/folders/?folderId=" ++ fid,
    contributors := [sampleUser, sampleUser2] }

def emptyViewEnv : ViewEnv := { refreshOk := true, getFolder := fun _ => .clientError }

def envRefreshFail : ViewEnv := { refreshOk := false, getFolder := fun _ => .clientError }

def envMaxRetry : ViewEnv := { refreshOk := true, getFolder := fun _ => .maxRetry }

def deletedFolder : RemoteFolder :=
  { name := "Gone", path_collection := [], item_collection := [], is_deleted := true }

def envDeleted : ViewEnv := { refreshOk := true, getFolder := fun _ => .ok deletedFolder }

/-! ## Claim theorems: folder listing views -/

/-- C4: whenever the `folderId` query parameter is absent (and the view's own
auth guard passes), `onedrive_folder_list` returns exactly one synthetic root
entry with id "0", kind "folder" and a self-referential listing link, and the
result is independent of the remote environment — no remote call is observed. -/
theorem folder_list_root (s : NodeSettings) (node : NodeCtx) (env env2 : ViewEnv)
    (h : has_auth s = true) :
    onedrive_folder_list s node env none = .ok [rootEntry node]
    ∧ onedrive_folder_list s node env none = onedrive_folder_list s node env2 none
    ∧ (rootEntry node).id = "0"
    ∧ (rootEntry node).kind = "folder"
    ∧ (rootEntry node).folders_url = node.apiUrlFor (rootEntry node).id := by
  refine ⟨?_, ?_, rfl, rfl, rfl⟩ <;> simp [onedrive_folder_list, h]

theorem folder_list_root_witness :
    has_auth authedSettings = true
    ∧ onedrive_folder_list authedSettings sampleNode emptyViewEnv none
        = .ok [rootEntry sampleNode]
    ∧ onedrive_folder_list authedSettings sampleNode emptyViewEnv none
        = onedrive_folder_list authedSettings sampleNode envMaxRetry none :=
  ⟨rfl,
   (folder_list_root authedSettings sampleNode emptyViewEnv envMaxRetry rfl).1,
   (folder_list_root authedSettings sampleNode emptyViewEnv envMaxRetry rfl).2.1⟩

/-- C3: with a non-null folder id (and the auth guard passed), the listing
fails with `NotFoundError` when the fetched record is marked deleted, with
`TransientError` (the retryable client error, `http.BAD_REQUEST`) when the
fetch exhausts its retry budget (`MaxRetryError`), and with `ForbiddenError`
when the token refresh / client construction fails with a client-side
auth error (`OnedriveClientException`). -/
theorem folder_list_errors (s : NodeSettings) (node : NodeCtx) (env : ViewEnv)
    (fid : String) (md : RemoteFolder) (h : has_auth s = true) :
    (env.refreshOk = false →
      onedrive_folder_list s node env (some fid) = .error ForbiddenError)
    ∧ (env.refreshOk = true → env.getFolder fid = .maxRetry →
      onedrive_folder_list s node env (some fid) = .error TransientError)
    ∧ (env.refreshOk = true → env.getFolder fid = .ok md → md.is_deleted = true →
      onedrive_folder_list s node env (some fid) = .error NotFoundError) := by
  refine ⟨fun h1 => ?_, fun h1 h2 => ?_, fun h1 h2 h3 => ?_⟩
  · simp [onedrive_folder_list, h, h1, ForbiddenError]
  · simp [onedrive_folder_list, h, h1, h2, TransientError]
  · simp [onedrive_folder_list, h, h1, h2, h3, NotFoundError]

theorem folder_list_errors_witness :
    onedrive_folder_list authedSettings sampleNode envRefreshFail (some "123")
        = .error ForbiddenError
    ∧ onedrive_folder_list authedSettings sampleNode envMaxRetry (some "123")
        = .error TransientError
    ∧ onedrive_folder_list authedSettings sampleNode envDeleted (some "123")
        = .error NotFoundError :=
  ⟨(folder_list_errors authedSettings sampleNode envRefreshFail "123" deletedFolder rfl).1 rfl,
   (folder_list_errors authedSettings sampleNode envMaxRetry "123" deletedFolder rfl).2.1 rfl rfl,
   (folder_list_errors authedSettings sampleNode envDeleted "123" deletedFolder rfl).2.2
     rfl rfl rfl⟩

/-- C9: `onedrive_get_share_emails` fails with a bad-request error when no
user settings are linked, fails with `ForbiddenError` when the caller is not
the owner of the linked credential, and on success returns the usernames of
the contributors excluding the caller. -/
theorem share_emails_spec (authUser : User) (s : NodeSettings) (node : NodeCtx) :
    (s.user_settings = none →
      onedrive_get_share_emails authUser s node = .error .badRequest)
    ∧ (∀ us, s.user_settings = some us → us.owner ≠ authUser →
      onedrive_get_share_emails authUser s node = .error ForbiddenError)
    ∧ (∀ us, s.user_settings = some us → us.owner = authUser →
      onedrive_get_share_emails authUser s node
        = .ok ((node.contributors.filter (fun c => c ≠ authUser)).map (·.username))) := by
  refine ⟨fun h1 => ?_, fun us h1 h2 => ?_, fun us h1 h2 => ?_⟩
  · simp [onedrive_get_share_emails, h1]
  · simp [onedrive_get_share_emails, h1, h2, ForbiddenError]
  · simp [onedrive_get_share_emails, h1, h2]

theorem share_emails_spec_witness :
    onedrive_get_share_emails sampleUser authedSettings sampleNode
        = .ok ["bob@example.org"]
    ∧ onedrive_get_share_emails sampleUser2 authedSettings sampleNode
        = .error ForbiddenError := by
  have h1 := (share_emails_spec sampleUser authedSettings sampleNode).2.2
    { owner := sampleUser, hasAuth := true, grants := [] } rfl rfl
  have h2 := (share_emails_spec sampleUser2 authedSettings sampleNode).2.1
    { owner := sampleUser, hasAuth := true, grants := [] } rfl (by decide)
  exact ⟨h1.trans (congrArg Except.ok (by decide)), h2⟩

/-! ## Claim theorems: cached metadata refresh -/

def failMEnv : MEnv := { refreshOk := true, getFolder := fun _ => .error () }

/-- C8: when the remote metadata fetch fails during the cached refresh (an
`OnedriveClientException` from the refresh or the fetch), `_update_folder_data`
silently skips the refresh: no error is surfaced and the state — in particular
`folder_name` and `folder_path` — is returned exactly as it was. -/
theorem update_folder_data_soft_fail (s : NodeSettings) (env : MEnv)
    (h : ∀ fid, s.folder_id = some fid →
      env.refreshOk = false ∨ env.getFolder fid = .error ()) :
    update_folder_data s env = s
    ∧ (update_folder_data s env).folder_name = s.folder_name
    ∧ (update_folder_data s env).folder_path = s.folder_path := by
  have h0 : update_folder_data s env = s := by
    unfold update_folder_data
    cases hf : s.folder_id with
    | none => rfl
    | some fid =>
      cases hd : s.folder_data with
      | some d => rfl
      | none =>
        rcases h fid hf with h1 | h1
        · simp [h1]
        · cases hr : env.refreshOk <;> simp [hr, h1]
  exact ⟨h0, by rw [h0], by rw [h0]⟩

theorem update_folder_data_soft_fail_witness :
    update_folder_data authedSettings failMEnv = authedSettings :=
  (update_folder_data_soft_fail authedSettings failMEnv (fun _ _ => Or.inr rfl)).1

def oldFolder : RemoteFolder :=
  { name := "Old", path_collection := [], item_collection := [], is_deleted := false }

def newFolder : RemoteFolder :=
  { name := "NewB", path_collection := [{ name := "Docs" }], item_collection := [],
    is_deleted := false }

def cachedSettings : NodeSettings :=
  { folder_id := some "A",
    folder_name := "Old",
    folder_path := "Old",
    folder_data := some oldFolder,
    user_settings := some { owner := sampleUser, hasAuth := true,
                            grants := [{ node := "node1", folder := "A" }] },
    external_account := some { token := "tok", expired := false } }

def envNewB : MEnv := { refreshOk := true, getFolder := fun _ => .ok newFolder }

/-- C5 counterexample: an instance whose `_folder_data` is already populated
(for folder "A").  `set_folder "B"` does not invalidate the memoized data, so
the guarded refresh is skipped even though the environment would return the
new folder ("NewB"): `folder_name` and `folder_path` still describe the old
folder, contrary to the claim that `set_folder` triggers a refresh for the
newly set id and leaves `folder_name`/`folder_path` describing that folder. -/
theorem set_folder_claim_counterexample :
    envNewB.getFolder "B" = .ok newFolder
    ∧ newFolder.name = "NewB"
    ∧ (set_folder cachedSettings "B" "node1" envNewB).folder_id = some "B"
    ∧ (set_folder cachedSettings "B" "node1" envNewB).folder_name = "Old"
    ∧ (set_folder cachedSettings "B" "node1" envNewB).folder_data = some oldFolder
    ∧ ("Old" : String) ≠ "NewB" :=
  ⟨rfl, rfl, rfl, rfl, rfl, by decide⟩

theorem set_folder_fields (s : NodeSettings) (fid nodeId : String) (env : MEnv) :
    (set_folder s fid nodeId env).folder_id
        = (update_folder_data { s with folder_id := some fid } env).folder_id
    ∧ (set_folder s fid nodeId env).folder_name
        = (update_folder_data { s with folder_id := some fid } env).folder_name
    ∧ (set_folder s fid nodeId env).folder_path
        = (update_folder_data { s with folder_id := some fid } env).folder_path
    ∧ (set_folder s fid nodeId env).folder_data
        = (update_folder_data { s with folder_id := some fid } env).folder_data := by
  by_cases hc : complete (update_folder_data { s with folder_id := some fid } env) nodeId = true
  · simp [set_folder, hc]
  · simp [set_folder, hc]

/-- C5 (amended): the memoized `_folder_data` is recomputed at most once per
instance and is never invalidated — neither `set_folder` nor `deauthorize`
resets it.  `set_folder(id)` triggers the metadata refresh only when no
metadata is cached yet, and in that case `folder_name`/`folder_path` describe
the newly set folder; when metadata was already cached, `set_folder` leaves
`folder_name`, `folder_path` and `_folder_data` unchanged — possibly
describing a previously cached folder. -/
theorem set_folder_amended (s : NodeSettings) (fid nodeId : String) (env : MEnv) :
    (∀ d, s.folder_data = none → env.refreshOk = true → env.getFolder fid = .ok d →
      (set_folder s fid nodeId env).folder_id = some fid
      ∧ (set_folder s fid nodeId env).folder_name = d.name
      ∧ (set_folder s fid nodeId env).folder_path
          = slashJoin ((d.path_collection.map (·.name)) ++ [d.name])
      ∧ (set_folder s fid nodeId env).folder_data = some d)
    ∧ (∀ d, s.folder_data = some d →
      (set_folder s fid nodeId env).folder_id = some fid
      ∧ (set_folder s fid nodeId env).folder_name = s.folder_name
      ∧ (set_folder s fid nodeId env).folder_path = s.folder_path
      ∧ (set_folder s fid nodeId env).folder_data = some d)
    ∧ (∀ d, s.folder_data = some d → update_folder_data s env = s)
    ∧ (deauthorize s env).folder_data = s.folder_data := by
  obtain ⟨e1, e2, e3, e4⟩ := set_folder_fields s fid nodeId env
  refine ⟨fun d h1 h2 h3 => ?_, fun d h1 => ?_, fun d h1 => ?_, rfl⟩
  · have hu : update_folder_data { s with folder_id := some fid } env
        = { s with
              folder_id := some fid,
              folder_data := some d,
              folder_name := d.name,
              folder_path := slashJoin ((d.path_collection.map (·.name)) ++ [d.name]) } := by
      simp [update_folder_data, h1, h2, h3]
    rw [e1, e2, e3, e4, hu]
    exact ⟨rfl, rfl, rfl, rfl⟩
  · have hu : update_folder_data { s with folder_id := some fid } env
        = { s with folder_id := some fid } := by
      simp [update_folder_data, h1]
    rw [e1, e2, e3, e4, hu]
    exact ⟨rfl, rfl, rfl, h1⟩
  · unfold update_folder_data
    cases hf : s.folder_id <;> simp [h1]

theorem set_folder_amended_witness :
    (set_folder authedSettings "B" "node1" envNewB).folder_name = "NewB"
    ∧ (set_folder cachedSettings "B" "node1" envNewB).folder_name = "Old" :=
  ⟨((set_folder_amended authedSettings "B" "node1" envNewB).1 newFolder rfl rfl rfl).2.1,
   (((set_folder_amended cachedSettings "B" "node1" envNewB).2.1 oldFolder rfl).2.1).trans rfl⟩

/-- C6 counterexample: `deauthorize` does not clear the cached folder
metadata: on an instance with populated `_folder_data` and non-empty
`folder_name`, both survive the call, contrary to the claim that it clears
the cached folder metadata. -/
theorem deauthorize_claim_counterexample :
    (deauthorize cachedSettings envNewB).folder_data = some oldFolder
    ∧ (some oldFolder ≠ (none : Option RemoteFolder))
    ∧ (deauthorize cachedSettings envNewB).folder_name = "Old"
    ∧ ("Old" : String) ≠ "" :=
  ⟨rfl, by decide, rfl, by decide⟩

/-- C6 (amended): `deauthorize()` always moves the Linked Folder to the
Unconfigured state by clearing `folder_id` and clearing the credential
reference (`user_settings` and `external_account`), while leaving the cached
folder metadata (`folder_name`, `folder_path`, `_folder_data`) untouched; it
is idempotent: a second call, under any environment, returns the same
Unconfigured state and performs no additional credential mutation. -/
theorem deauthorize_amended (s : NodeSettings) (env env2 : MEnv) :
    deauthorize s env
        = { s with folder_id := none, user_settings := none, external_account := none }
    ∧ (deauthorize s env).folder_id = none
    ∧ (deauthorize s env).user_settings = none
    ∧ (deauthorize s env).external_account = none
    ∧ (deauthorize s env).folder_name = s.folder_name
    ∧ (deauthorize s env).folder_path = s.folder_path
    ∧ (deauthorize s env).folder_data = s.folder_data
    ∧ deauthorize (deauthorize s env) env2 = deauthorize s env :=
  ⟨rfl, rfl, rfl, rfl, rfl, rfl, rfl, rfl⟩

def expiredAccount : Account := { token := "stale", expired := true }

def expiredSettings : NodeSettings :=
  { folder_id := some "A",
    folder_name := "",
    folder_path := "",
    folder_data := none,
    user_settings := some { owner := sampleUser, hasAuth := true, grants := [] },
    external_account := some expiredAccount }

def refuseEnv : TokenEnv := { refreshResult := none }

def grantEnv : TokenEnv := { refreshResult := some "fresh" }

/-- C7 counterexample: a linked credential whose stored token is expired while
the provider refuses the refresh.  `serialize_waterbutler_credentials` then
fails with the re-raised `HTTPError` instead of returning `{token}`, so the
claim that it returns a fresh token whenever a credential is linked is false
(the `AddonError`-exactly-when-unlinked half survives, since the failure is
not an `AddonError`). -/
theorem serialize_credentials_claim_counterexample :
    has_auth expiredSettings = true
    ∧ (serialize_waterbutler_credentials expiredSettings refuseEnv).1
        = .error .httpError
    ∧ SerErr.httpError ≠ SerErr.notAuthorized :=
  ⟨rfl, rfl, by decide⟩

/-- C7 (amended): `serialize_waterbutler_credentials` fails with the
`AddonError` ("Addon is not authorized") exactly when no credential is
linked; when a credential is linked it ensures token freshness: if the stored
token is unexpired it is returned as `{token}` unchanged, and if it is
expired but the provider refresh succeeds, the refreshed, non-expired token
is returned and persisted — even though the stored token was expired at call
time; a failing refresh surfaces as an `HTTPError`, not an `AddonError`.
`serialize_waterbutler_settings` fails with the `AddonError`
("Folder is not configured") exactly when `folder_id` is null, and otherwise
returns `{folder: folder_id}`. -/
theorem serialize_amended (s : NodeSettings) (env : TokenEnv) :
    ((serialize_waterbutler_credentials s env).1 = .error .notAuthorized
      ↔ has_auth s = false)
    ∧ (∀ a, s.external_account = some a → a.expired = false → has_auth s = true →
      serialize_waterbutler_credentials s env = (.ok a.token, s))
    ∧ (∀ a t, s.external_account = some a → a.expired = true →
      env.refreshResult = some t → has_auth s = true →
      (serialize_waterbutler_credentials s env).1 = .ok t
      ∧ (serialize_waterbutler_credentials s env).2.external_account
          = some { token := t, expired := false })
    ∧ (serialize_waterbutler_settings s = .error .folderNotConfigured
        ↔ s.folder_id = none)
    ∧ (∀ fid, s.folder_id = some fid → serialize_waterbutler_settings s = .ok fid) := by
  refine ⟨?_, fun a ha hexp hha => ?_, fun a t ha hexp hr hha => ?_, ?_, fun fid hf => ?_⟩
  · cases hha : has_auth s with
    | false => simp [serialize_waterbutler_credentials, hha]
    | true =>
      simp only [serialize_waterbutler_credentials, hha, Bool.not_true,
        Bool.false_eq_true, if_false, iff_false]
      cases hea : s.external_account with
      | none => simp
      | some a =>
        cases hrk : refresh_oauth_key a env with
        | ok a2 => simp [hrk]
        | error e => simp [hrk]
  · have hstate : ({ s with external_account := some a } : NodeSettings) = s := by
      rw [← ha]
    simp [serialize_waterbutler_credentials, hha, ha, refresh_oauth_key, hexp, hstate]
  · simp [serialize_waterbutler_credentials, hha, ha, refresh_oauth_key, hexp, hr]
  · cases hf : s.folder_id <;> simp [serialize_waterbutler_settings, hf]
  · simp [serialize_waterbutler_settings, hf]

theorem serialize_amended_witness :
    ((serialize_waterbutler_credentials expiredSettings grantEnv).1 = .ok "fresh"
      ∧ (serialize_waterbutler_credentials expiredSettings grantEnv).2.external_account
          = some { token := "fresh", expired := false })
    ∧ serialize_waterbutler_settings expiredSettings = .ok "A" :=
  ⟨(serialize_amended expiredSettings grantEnv).2.2.1 expiredAccount "fresh" rfl rfl rfl rfl,
   (serialize_amended expiredSettings grantEnv).2.2.2.2 "A" rfl⟩

theorem slashJoin_append (l : List String) (y : String) (hl : l ≠ []) :
    slashJoin (l ++ [y]) = slashJoin l ++ "/" ++ y := by
  induction l with
  | nil => exact absurd rfl hl
  | cons x xs ih =>
    cases xs with
    | nil => rfl
    | cons a as =>
      have h := ih (by simp)
      show slashJoin (x :: ((a :: as) ++ [y])) = _
      have h2 : (a :: as) ++ [y] = a :: (as ++ [y]) := rfl
      rw [h2]
      show x ++ "/" ++ slashJoin (a :: (as ++ [y])) = _
      rw [← h2, h, slashJoin]
      simp [String.append_assoc]

theorem osPathJoin_sep (a b : String) (hb : pyStartsWith b "/" = false)
    (ha0 : a ≠ "") (haE : pyEndsWith a "/" = false) :
    osPathJoin a b = a ++ "/" ++ b := by
  simp [osPathJoin, hb, ha0, haE]

def scenarioFolder : RemoteFolder :=
  { name := "Reports",
    path_collection := [{ name := "Documents" }],
    item_collection := [{ id := "1", name := "Q1", type := "folder" },
                        { id := "2", name := "notes.txt", type := "file" }],
    is_deleted := false }

def scenarioEnv : ViewEnv := { refreshOk := true, getFolder := fun _ => .ok scenarioFolder }

def absItemFolder : RemoteFolder :=
  { name := "Reports",
    path_collection := [{ name := "Documents" }],
    item_collection := [{ id := "1", name := "/Q1", type := "folder" }],
    is_deleted := false }

def absItemEnv : ViewEnv := { refreshOk := true, getFolder := fun _ => .ok absItemFolder }

/-- C2 counterexample: a folder whose single child item is named `"/Q1"`.
The code computes the path with `os.path.join`, which discards the prefix
when the second component is absolute, so the returned path is `"/Q1"` and
not the claimed forward-slash join `"Documents/Reports//Q1"`. -/
theorem folder_list_children_claim_counterexample :
    onedrive_folder_list authedSettings sampleNode absItemEnv (some "123")
        = .ok [{ addon := "onedrive", kind := "folder", id := "1", name := "/Q1",
                 path := "/Q1",
                 folders_url := "/api/v1/project/p1/onedrive/folders/?folderId=1" }]
    ∧ slashJoin ["Documents", "Reports", "/Q1"] = "Documents/Reports//Q1"
    ∧ ("/Q1" : String) ≠ "Documents/Reports//Q1" := by
  refine ⟨?_, by decide, by decide⟩
  show Except.ok _ = _
  exact congrArg Except.ok (by decide)

/-- C2 (amended): for every non-null folder id whose fetch succeeds on
non-deleted metadata, the listing returns exactly one entry per item of type
"folder", in order, with that item's id and name, every non-folder item
omitted without error; each path is `os.path.join(full_path, item_name)`
under the POSIX join the deployment host uses, which coincides with the
forward-slash join `p1/…/pk/m/<item name>` whenever the item name does not
start with "/" and the joined prefix is nonempty and does not end with "/"
(an absolute item name yields the item name alone instead).  The §8 scenario
for folder "123" yields the single entry
{id:"1", name:"Q1", path:"Documents/Reports/Q1"}. -/
theorem folder_list_children_amended (s : NodeSettings) (node : NodeCtx) (env : ViewEnv)
    (fid : String) (md : RemoteFolder)
    (hauth : has_auth s = true) (hr : env.refreshOk = true)
    (hf : env.getFolder fid = .ok md) (hdel : md.is_deleted = false) :
    onedrive_folder_list s node env (some fid)
        = .ok ((md.item_collection.filter (fun item => item.type == "folder")).map
            (childEntry node (fullPath md)))
    ∧ (∀ item : OneItem, fullPath md ≠ "" → pyEndsWith (fullPath md) "/" = false →
      pyStartsWith item.name "/" = false →
      (childEntry node (fullPath md) item).path
        = slashJoin ((md.path_collection.map (·.name)) ++ [md.name, item.name])) := by
  constructor
  · simp [onedrive_folder_list, hauth, hr, hf, hdel]
  · intro item h1 h2 h3
    have hsplit : (md.path_collection.map (·.name)) ++ [md.name, item.name]
        = ((md.path_collection.map (·.name)) ++ [md.name]) ++ [item.name] := by
      simp
    rw [hsplit, slashJoin_append _ _ (by simp)]
    show osPathJoin (fullPath md) item.name = _
    rw [osPathJoin_sep _ _ h3 h1 h2]
    rfl

theorem folder_list_children_amended_witness :
    onedrive_folder_list authedSettings sampleNode scenarioEnv (some "123")
        = .ok [{ addon := "onedrive", kind := "folder", id := "1", name := "Q1",
                 path := "Documents/Reports/Q1",
                 folders_url := "/api/v1/project/p1/onedrive/folders/?folderId=1" }]
    ∧ (childEntry sampleNode (fullPath scenarioFolder)
        { id := "1", name := "Q1", type := "folder" }).path
          = slashJoin ["Documents", "Reports", "Q1"] := by
  have h := folder_list_children_amended authedSettings sampleNode scenarioEnv "123"
    scenarioFolder rfl rfl rfl rfl
  refine ⟨h.1.trans (congrArg Except.ok (by decide)), ?_⟩
  have h2 := h.2 { id := "1", name := "Q1", type := "folder" } (by decide) (by decide) (by decide)
  exact h2.trans (by decide)

theorem pyReplaceAux_eq_or_mem (pat rep : List Char) (c : Char) (hc : c ∈ rep) :
    ∀ (fuel : Nat) (s : List Char),
      pyReplaceAux fuel s pat rep = s ∨ c ∈ pyReplaceAux fuel s pat rep := by
  intro fuel
  induction fuel with
  | zero => intro s; exact Or.inl rfl
  | succ n ih =>
    intro s
    match s with
    | [] => exact Or.inl rfl
    | a :: rest =>
      by_cases hp : pat.isPrefixOf (a :: rest)
      · right
        rw [pyReplaceAux, if_pos hp]
        exact List.mem_append_left _ hc
      · rcases ih rest with h | h
        · left
          rw [pyReplaceAux, if_neg hp, h]
        · right
          rw [pyReplaceAux, if_neg hp]
          exact List.mem_cons_of_mem a h

theorem pyStrReplace_allFiles_ne (name : String) :
    pyStrReplace name "All Files" "/ (Full Onedrive)" ≠ "All Files" := by
  intro h
  have hd : pyReplaceAux name.data.length name.data "All Files".data "/ (Full Onedrive)".data
      = "All Files".data := congrArg String.data h
  rcases pyReplaceAux_eq_or_mem "All Files".data "/ (Full Onedrive)".data '('
      (by decide) name.data.length name.data with h1 | h1
  · have hn : name.data = "All Files".data := h1.symm.trans hd
    have hname : name = "All Files" := by
      cases name with
      | mk l => exact congrArg String.mk hn
    rw [hname] at h
    exact absurd h (by decide)
  · rw [hd] at h1
    exact absurd h1 (by decide)

/-- C10: for every configured instance, `fetch_folder_name` returns the
stored (post-refresh) `folder_name` with every occurrence of "All Files"
replaced by "/ (Full Onedrive)" — in particular it never returns the literal
"All Files" — while `fetch_full_folder_path` returns the stored
(post-refresh) `folder_path` unmodified. -/
theorem fetch_folder_name_spec (s : NodeSettings) (env : MEnv) (fid : String)
    (_h : s.folder_id = some fid) :
    (fetch_folder_name s env).1
        = pyStrReplace (update_folder_data s env).folder_name "All Files" "/ (Full Onedrive)"
    ∧ (fetch_folder_name s env).1 ≠ "All Files"
    ∧ (fetch_full_folder_path s env).1 = (update_folder_data s env).folder_path :=
  ⟨rfl, pyStrReplace_allFiles_ne _, rfl⟩

def allFilesSettings : NodeSettings :=
  { folder_id := some "0",
    folder_name := "All Files",
    folder_path := "All Files",
    folder_data := some oldFolder,
    user_settings := some { owner := sampleUser, hasAuth := true, grants := [] },
    external_account := some { token := "tok", expired := false } }

theorem fetch_folder_name_spec_witness :
    (fetch_folder_name allFilesSettings failMEnv).1 ≠ "All Files"
    ∧ (fetch_full_folder_path allFilesSettings failMEnv).1
        = (update_folder_data allFilesSettings failMEnv).folder_path :=
  ⟨(fetch_folder_name_spec allFilesSettings failMEnv "0" rfl).2.1,
   (fetch_folder_name_spec allFilesSettings failMEnv "0" rfl).2.2⟩

end OsfSpec
